import Mathlib

/-!
Verification of the diagon repository: the retry/escalation loop
(src/diagon/stopgate.py) and the gated atomic file write
(src/diagon/file_gate.py), shallowly embedded in Lean.

Conventions of the embedding:
* Python exceptions are values of `PyError` (carrying the exception type
  name and its text); fallible calls return `Except PyError A`.
* A side-effecting zero-argument operation is modelled as a function from
  its 0-based invocation index to its outcome, so "fails twice then
  succeeds" is expressible.
* The prompt capability is a function from its 0-based call index, the
  title and the message to the string it returns.
* `time.monotonic` readings are modelled by a sequence `clock : Nat → Nat`:
  `clock 0` is the reading at loop entry (`start`), `clock (k + 1)` the
  reading at the deadline check following the k-th attempt.  `deadline_s`
  is likewise a `Nat`; the Python truthiness test `if cfg.deadline_s`
  becomes `deadline_s ≠ 0`.
* The filesystem is a map from path strings to optional byte strings
  (`Fs`); directories are not modelled (`mkdir` touches no file contents).
-/

/-- A Python exception value: its type name (`type(e).__name__`) and its
text (`str(e)`). -/
structure PyError where
  name : String
  text : String
deriving DecidableEq, Repr

/-- `StopConfig` from src/diagon/stopgate.py with its defaults.  The source
comment on `show_details` reads "show exception text in the dialog". -/
structure StopConfig where
  max_attempts : Nat := 99
  deadline_s : Nat := 0
  show_details : Bool := true
  title : String := "Action required"
deriving DecidableEq, Repr

/-- How one call to `stop_until_resolved` can terminate: return a value,
or raise one of the three terminal failures, each chaining the triggering
error as cause (`raise ... from e`, or the bare re-raise on abort). -/
inductive TermKind (α : Type) where
  | success (v : α)
  | deadline (cause : PyError)
  | maxAttempts (cause : PyError)
  | aborted (cause : PyError)
deriving DecidableEq, Repr

/-- Result of a run of the loop: how it terminated, how many times the
operation was invoked, and how many times the prompt was invoked. -/
structure RunResult (α : Type) where
  outcome : TermKind α
  opCalls : Nat
  promptCalls : Nat
deriving DecidableEq, Repr

/-- The message composed in `stop_until_resolved` before the details
suffix is appended. -/
def msgHeader : String :=
  "An operation failed.\n\nTake whatever action is needed outside the program (e.g., close a file, log in, connect VPN), then click Retry."

/-- The message passed to the prompt on a non-terminal failure.  As in the
source, the `Details:` suffix is appended unconditionally: the
`show_details` field of the config is never consulted. -/
def composeMsg (cfg : StopConfig) (e : PyError) : String :=
  msgHeader ++ "\n\nDetails: " ++ e.name ++ ": " ++ e.text

/-- The `while True` loop of `stop_until_resolved`, entered with
`attempts` completed attempts (the Python `attempts` counter equals
`attempts + 1` after the increment at the top of the iteration).
Faithful transcription of src/diagon/stopgate.py lines 81-101:
invoke the operation; on success return its result; on failure check the
deadline, then the attempt limit, then prompt, re-raising on any answer
other than "retry" and looping otherwise. -/
def stopLoop {α : Type} (op : Nat → Except PyError α)
    (prompt : Nat → String → String → String)
    (cfg : StopConfig) (clock : Nat → Nat) (start attempts : Nat) :
    RunResult α :=
  match op attempts with
  | Except.ok v => ⟨TermKind.success v, attempts + 1, attempts⟩
  | Except.error e =>
    if cfg.deadline_s ≠ 0 ∧ cfg.deadline_s ≤ clock (attempts + 1) - start then
      ⟨TermKind.deadline e, attempts + 1, attempts⟩
    else if h : cfg.max_attempts ≤ attempts + 1 then
      ⟨TermKind.maxAttempts e, attempts + 1, attempts⟩
    else if prompt attempts cfg.title (composeMsg cfg e) ≠ "retry" then
      ⟨TermKind.aborted e, attempts + 1, attempts + 1⟩
    else
      stopLoop op prompt cfg clock start (attempts + 1)
termination_by cfg.max_attempts - attempts
decreasing_by omega

/-- `stop_until_resolved` from src/diagon/stopgate.py: record the start
time, zero the attempt counter, and run the loop. -/
def stop_until_resolved {α : Type} (op : Nat → Except PyError α)
    (prompt : Nat → String → String → String)
    (cfg : StopConfig) (clock : Nat → Nat) : RunResult α :=
  stopLoop op prompt cfg clock (clock 0) 0

/-- `pause_on_error` from src/diagon/stopgate.py: the wrapped function
called on `args` is `stop_until_resolved` applied to the zero-argument
closure of `fn` over the original arguments, captured once. -/
def pause_on_error {α β : Type} (prompt : Nat → String → String → String)
    (cfg : StopConfig) (fn : Nat → β → Except PyError α) (args : β)
    (clock : Nat → Nat) : RunResult α :=
  stop_until_resolved (fun k => fn k args) prompt cfg clock

/-- A filesystem: paths to optional byte contents (`none` = absent). -/
def Fs : Type := String → Option (List Nat)

/-- Write (create or overwrite) the file at `p` with contents `d`. -/
def fsWrite (fs : Fs) (p : String) (d : List Nat) : Fs :=
  fun q => if q = p then some d else fs q

/-- `os.replace(src, dst)`: one indivisible rename of `src` onto `dst`,
replacing whatever was at `dst`. -/
def fsRename (fs : Fs) (src dst : String) : Fs :=
  fun q => if q = dst then fs src else if q = src then none else fs q

/-- The filesystem states passed through by `_atomic_replace` before the
final `os.replace`: the initial state (`mkdir` touches no file contents),
the state right after `NamedTemporaryFile` creates the fresh empty
temporary file in the destination directory, and the state after each
partial write of a byte prefix of `data` into the temporary file
(`tmp.write`, `tmp.flush` and `os.fsync` change no other file). -/
def atomicPreStates (fs : Fs) (tmp : String) (data : List Nat) : List Fs :=
  fs :: (List.range (data.length + 1)).map (fun k => fsWrite fs tmp (data.take k))

/-- `_atomic_replace` from src/diagon/file_gate.py: write `data` to a
fresh temporary file `tmp` co-located with `dest`, then atomically rename
it onto `dest`. -/
def _atomic_replace (fs : Fs) (tmp dest : String) (data : List Nat) : Fs :=
  fsRename (fsWrite fs tmp data) tmp dest

/-- `gate_write` from src/diagon/file_gate.py.  The prompt capability
returns the path the user typed, or `none` on cancel; `expanduser` models
`Path(target).expanduser()` and `encode` models `content.encode(encoding)`.
Returns the result (`none` on cancel), the resulting filesystem, and the
list of toast notices emitted. -/
def gate_write (prompt : String → String → Option String)
    (expanduser : String → String) (encode : String → List Nat)
    (fs : Fs) (tmpName : String) (path : String) (content : String) :
    Option String × Fs × List String :=
  match prompt ("Write file to:\n" ++ path) "Write File" with
  | none => (none, fs, ["Write cancelled"])
  | some target =>
    let dest := expanduser target
    (some dest, _atomic_replace fs tmpName dest (encode content),
      ["Wrote " ++ dest])

/-- The console fallback branch of `tk_prompt` in src/diagon/file_gate.py
(taken when tkinter is unavailable): `input` prints the message followed
by a newline and a prompt marker and reads one line; `inputLine` is that
line, with `none` modelling end-of-input (`EOFError`).  Returns the text
printed and the value produced. -/
def tk_prompt_fallback (message : String) (inputLine : Option String) :
    String × Option String :=
  (message ++ "\n> ",
    match inputLine with
    | none => none
    | some line => some line)

/-! Concrete inputs used by the witnesses. -/

/-- A concrete error value. -/
def errBoom : PyError := ⟨"ValueError", "boom"⟩

/-- An operation failing on every invocation. -/
def opFail : Nat → Except PyError Nat := fun _ => Except.error errBoom

/-- An operation succeeding on every invocation. -/
def opOk : Nat → Except PyError Nat := fun _ => Except.ok 42

/-- A prompt always answering "retry". -/
def promptRetry : Nat → String → String → String := fun _ _ _ => "retry"

/-- A prompt always answering "abort". -/
def promptAbort : Nat → String → String → String := fun _ _ _ => "abort"

/-- A config with three attempts and no deadline. -/
def cfg3 : StopConfig := ⟨3, 0, true, "Action required"⟩

/-- A config with a 5-tick deadline. -/
def cfgDeadline : StopConfig := ⟨99, 5, true, "Action required"⟩

/-- A config with a single attempt, a 1-tick deadline, and details off. -/
def cfgTight : StopConfig := ⟨1, 1, false, "Action required"⟩

/-- A clock advancing ten ticks per reading. -/
def clockFast : Nat → Nat := fun k => 10 * k

/-- A clock that never advances. -/
def clockStill : Nat → Nat := fun _ => 0

/-- A function of one argument failing on its first two invocations and
then returning its argument plus one hundred. -/
def fnTwiceFail : Nat → Nat → Except PyError Nat :=
  fun k a => if k < 2 then Except.error errBoom else Except.ok (a + 100)

/-- A concrete starting filesystem: one existing destination file. -/
def fsStart : Fs :=
  fun q => if q = "out/dest.txt" then some [1, 2, 3] else none

/-- A path-prompt capability that always cancels. -/
def pathPromptNone : String → String → Option String := fun _ _ => none

/-- The identity model of `Path.expanduser` for paths without a tilde. -/
def expandId : String → String := fun s => s

/-- The UTF-8 encoding of a string as a byte list, modelling
`content.encode("utf-8")`. -/
def encodeUtf8 : String → List Nat :=
  fun s => s.toUTF8.toList.map (fun b => b.toNat)

/-! Theorems, one per claim (with shared helper lemmas first). -/

/-- Helper: with no deadline, an always-failing operation and an
always-"retry" prompt, the loop runs from any state with fewer completed
attempts than `max_attempts` to the max-attempts failure, having invoked
the operation `max_attempts` times in total and the prompt once per
non-final failure. -/
theorem stopLoop_allfail_retry {α : Type} (op : Nat → Except PyError α)
    (errs : Nat → PyError) (prompt : Nat → String → String → String)
    (cfg : StopConfig) (clock : Nat → Nat) (start : Nat)
    (hd : cfg.deadline_s = 0)
    (hop : ∀ k, op k = Except.error (errs k))
    (hpr : ∀ i t m, prompt i t m = "retry") :
    ∀ j attempts, attempts + j + 1 = cfg.max_attempts →
      stopLoop op prompt cfg clock start attempts =
        ⟨TermKind.maxAttempts (errs (cfg.max_attempts - 1)),
          cfg.max_attempts, cfg.max_attempts - 1⟩ := by
  intro j
  induction j with
  | zero =>
    intro attempts h
    have h1 : cfg.max_attempts - 1 = attempts := by omega
    have h2 : cfg.max_attempts = attempts + 1 := by omega
    have hle : cfg.max_attempts ≤ attempts + 1 := by omega
    rw [stopLoop, hop attempts]
    simp [hd, hle, h1, h2]
  | succ j ih =>
    intro attempts h
    have hlt : ¬ cfg.max_attempts ≤ attempts + 1 := by omega
    rw [stopLoop, hop attempts]
    simp [hd, hlt, hpr]
    exact ih (attempts + 1) (by omega)

/-- C2: with `deadline_s = 0` and `max_attempts = n ≥ 1`, an operation
failing on every attempt under an always-"retry" prompt makes
`stop_until_resolved` terminate with the max-attempts failure after
exactly `n` invocations of the operation, chaining the error of the final
attempt as the cause. -/
theorem stop_until_resolved_max_attempts {α : Type}
    (op : Nat → Except PyError α) (errs : Nat → PyError)
    (prompt : Nat → String → String → String) (cfg : StopConfig)
    (clock : Nat → Nat)
    (hn : 1 ≤ cfg.max_attempts) (hd : cfg.deadline_s = 0)
    (hop : ∀ k, op k = Except.error (errs k))
    (hpr : ∀ i t m, prompt i t m = "retry") :
    stop_until_resolved op prompt cfg clock =
      ⟨TermKind.maxAttempts (errs (cfg.max_attempts - 1)),
        cfg.max_attempts, cfg.max_attempts - 1⟩ := by
  unfold stop_until_resolved
  exact stopLoop_allfail_retry op errs prompt cfg clock (clock 0) hd hop
    hpr (cfg.max_attempts - 1) 0 (by omega)

/-- Witness for C2 with `max_attempts = 3`: exactly 3 invocations. -/
theorem stop_until_resolved_max_attempts_witness :
    stop_until_resolved opFail promptRetry cfg3 clockStill =
      ⟨TermKind.maxAttempts errBoom, 3, 2⟩ :=
  stop_until_resolved_max_attempts opFail (fun _ => errBoom) promptRetry
    cfg3 clockStill (by decide) rfl (fun _ => rfl) (fun _ _ _ => rfl)

/-- C10: in the scenario of C2 the prompt is invoked exactly
`max_attempts - 1` times: the final failed attempt raises the
max-attempts failure directly, without a further prompt round-trip. -/
theorem stop_until_resolved_prompt_count {α : Type}
    (op : Nat → Except PyError α) (errs : Nat → PyError)
    (prompt : Nat → String → String → String) (cfg : StopConfig)
    (clock : Nat → Nat)
    (hn : 1 ≤ cfg.max_attempts) (hd : cfg.deadline_s = 0)
    (hop : ∀ k, op k = Except.error (errs k))
    (hpr : ∀ i t m, prompt i t m = "retry") :
    (stop_until_resolved op prompt cfg clock).promptCalls =
      cfg.max_attempts - 1 := by
  unfold stop_until_resolved
  rw [stopLoop_allfail_retry op errs prompt cfg clock (clock 0) hd hop
    hpr (cfg.max_attempts - 1) 0 (by omega)]

/-- Witness for C10 with `max_attempts = 3`: exactly 2 prompt calls. -/
theorem stop_until_resolved_prompt_count_witness :
    (stop_until_resolved opFail promptRetry cfg3 clockStill).promptCalls =
      2 :=
  stop_until_resolved_prompt_count opFail (fun _ => errBoom) promptRetry
    cfg3 clockStill (by decide) rfl (fun _ => rfl) (fun _ _ _ => rfl)

/-- C3: with `deadline_s = 0` and `max_attempts ≥ 2`, if the first
attempt fails and the prompt answers anything other than "retry",
`stop_until_resolved` re-raises the original error as the user-aborted
failure after exactly one invocation of the operation and one invocation
of the prompt. -/
theorem stop_until_resolved_abort {α : Type}
    (op : Nat → Except PyError α)
    (prompt : Nat → String → String → String) (cfg : StopConfig)
    (clock : Nat → Nat) (e0 : PyError)
    (hd : cfg.deadline_s = 0) (hm : 2 ≤ cfg.max_attempts)
    (hop : op 0 = Except.error e0)
    (hpr : ∀ t m, prompt 0 t m ≠ "retry") :
    stop_until_resolved op prompt cfg clock =
      ⟨TermKind.aborted e0, 1, 1⟩ := by
  have hlt : ¬ cfg.max_attempts ≤ 0 + 1 := by omega
  unfold stop_until_resolved
  rw [stopLoop, hop]
  simp [hd, hlt, hpr]

/-- Witness for C3 with an always-"abort" prompt. -/
theorem stop_until_resolved_abort_witness :
    stop_until_resolved opFail promptAbort cfg3 clockStill =
      ⟨TermKind.aborted errBoom, 1, 1⟩ :=
  stop_until_resolved_abort opFail promptAbort cfg3 clockStill errBoom
    rfl (by decide) rfl (fun _ _ => by simp [promptAbort])

/-- C4: with a nonzero deadline, whenever an attempt of the operation
fails and the elapsed monotonic time since loop entry has reached the
deadline, the loop raises the deadline failure chaining that attempt's
error as cause, with no prompt invocation for that failure and with no
constraint on `max_attempts` (the deadline check precedes the
attempt-limit check).  `stop_until_resolved op prompt cfg clock` is by
definition `stopLoop op prompt cfg clock (clock 0) 0`, so with
`start = clock 0` this covers every state the loop reaches, the entry
state included. -/
theorem stopLoop_deadline {α : Type} (op : Nat → Except PyError α)
    (prompt : Nat → String → String → String) (cfg : StopConfig)
    (clock : Nat → Nat) (start attempts : Nat) (e : PyError)
    (hdl : cfg.deadline_s ≠ 0)
    (hop : op attempts = Except.error e)
    (helapsed : cfg.deadline_s ≤ clock (attempts + 1) - start) :
    stopLoop op prompt cfg clock start attempts =
      ⟨TermKind.deadline e, attempts + 1, attempts⟩ := by
  rw [stopLoop, hop]
  simp [hdl, helapsed]

/-- Witness for C4: deadline 5 ticks, clock advancing 10 ticks per
reading, first attempt fails, `max_attempts` irrelevant. -/
theorem stopLoop_deadline_witness :
    stopLoop opFail promptRetry cfgDeadline clockFast 0 0 =
      ⟨TermKind.deadline errBoom, 1, 0⟩ :=
  stopLoop_deadline opFail promptRetry cfgDeadline clockFast 0 0 errBoom
    (by decide) rfl (by decide)

/-- C5: if the operation succeeds at the current attempt, the loop
returns that result immediately, invoking neither the deadline check, the
attempt-limit check nor the prompt — for every config and clock, so also
when the deadline has already elapsed or the attempt count has reached
`max_attempts`.  With `start = clock 0` and `attempts = 0` this is
exactly `stop_until_resolved`, and the statement covers every state the
loop reaches. -/
theorem stopLoop_success {α : Type} (op : Nat → Except PyError α)
    (prompt : Nat → String → String → String) (cfg : StopConfig)
    (clock : Nat → Nat) (start attempts : Nat) (v : α)
    (hop : op attempts = Except.ok v) :
    stopLoop op prompt cfg clock start attempts =
      ⟨TermKind.success v, attempts + 1, attempts⟩ := by
  rw [stopLoop, hop]

/-- Witness for C5: success returned even though `max_attempts = 1` is
long exceeded (5 completed attempts) and the 1-tick deadline has elapsed
(clock advanced 60 ticks). -/
theorem stopLoop_success_witness :
    stopLoop opOk promptRetry cfgTight clockFast 0 5 =
      ⟨TermKind.success 42, 6, 5⟩ :=
  stopLoop_success opOk promptRetry cfgTight clockFast 0 5 42 rfl

/-- C6 (code bug): the message handed to the prompt always carries the
"Details:" suffix with the error's type name and text, even when
`show_details` is false — the config's `show_details` field is never
consulted by the source, contradicting its own field comment ("show
exception text in the dialog"). -/
theorem composeMsg_details_always (cfg : StopConfig) (e : PyError)
    (h : cfg.show_details = false) :
    composeMsg cfg e =
      msgHeader ++ "\n\nDetails: " ++ e.name ++ ": " ++ e.text := rfl

/-- Witness for C6 at a config with `show_details = false`. -/
theorem composeMsg_details_always_witness :
    composeMsg cfgTight errBoom =
      msgHeader ++ "\n\nDetails: " ++ "ValueError" ++ ": " ++ "boom" :=
  composeMsg_details_always cfgTight errBoom rfl

/-- C7: the function wrapped by `pause_on_error` behaves exactly as
`stop_until_resolved` on the zero-argument closure of the function over
the original arguments (first conjunct, for every function, argument,
prompt, config and clock); in particular a function failing on its first
two invocations and succeeding on the third, under an always-"retry"
prompt, yields its successful result after exactly three invocations —
each applied to the same original `args`, as the closure captures them
once. -/
theorem pause_on_error_refinement {α β : Type}
    (prompt : Nat → String → String → String) (cfg : StopConfig)
    (fn : Nat → β → Except PyError α) (args : β) (clock : Nat → Nat)
    (e0 e1 : PyError) (v : α)
    (hd : cfg.deadline_s = 0) (hm : 3 ≤ cfg.max_attempts)
    (h0 : fn 0 args = Except.error e0)
    (h1 : fn 1 args = Except.error e1)
    (h2 : fn 2 args = Except.ok v)
    (hpr : ∀ i t m, prompt i t m = "retry") :
    (∀ (g : Nat → β → Except PyError α) (b : β)
        (p : Nat → String → String → String) (c : StopConfig)
        (cl : Nat → Nat),
        pause_on_error p c g b cl =
          stop_until_resolved (fun k => g k b) p c cl) ∧
      pause_on_error prompt cfg fn args clock =
        ⟨TermKind.success v, 3, 2⟩ := by
  refine ⟨fun g b p c cl => rfl, ?_⟩
  have hlt1 : ¬ cfg.max_attempts ≤ 0 + 1 := by omega
  have hlt2 : ¬ cfg.max_attempts ≤ 1 + 1 := by omega
  unfold pause_on_error stop_until_resolved
  rw [stopLoop]
  simp only [h0, hd, hpr]
  simp [hlt1]
  rw [stopLoop]
  simp only [h1, hd, hpr]
  simp [hlt2]
  rw [stopLoop]
  simp [h2]

/-- Witness for C7: `fnTwiceFail` with argument 7 fails twice, then
returns 107 on the third invocation. -/
theorem pause_on_error_refinement_witness :
    pause_on_error promptRetry cfg3 fnTwiceFail 7 clockStill =
      ⟨TermKind.success 107, 3, 2⟩ :=
  (pause_on_error_refinement promptRetry cfg3 fnTwiceFail 7 clockStill
    errBoom errBoom 107 rfl (by decide) rfl rfl rfl (fun _ _ _ => rfl)).2

/-- C1: the write step of `gate_write` never leaves the destination in a
partial state.  Provided the fresh temporary file name differs from the
destination, every filesystem state before the atomic rename completes —
including any state where a fault is injected between temporary-file
creation and the rename, after any byte prefix of the data has been
written — leaves the destination path's prior contents (or absence)
unchanged, and after the rename the destination holds exactly the new
content in full. -/
theorem atomic_replace_atomic (fs : Fs) (tmp dest : String)
    (data : List Nat) (hfresh : tmp ≠ dest) :
    (∀ s ∈ atomicPreStates fs tmp data, s dest = fs dest) ∧
      _atomic_replace fs tmp dest data dest = some data := by
  constructor
  · intro s hs
    rcases List.mem_cons.mp hs with h | h
    · rw [h]
    · rcases List.mem_map.mp h with ⟨k, _, hk⟩
      rw [← hk]
      simp [fsWrite, Ne.symm hfresh]
  · simp [_atomic_replace, fsRename, fsWrite, hfresh]

/-- Witness for C1 at a concrete filesystem, temporary name, destination
and content. -/
theorem atomic_replace_atomic_witness :
    (∀ s ∈ atomicPreStates fsStart "out/tmpab12" [9, 9],
        s "out/dest.txt" = fsStart "out/dest.txt") ∧
      _atomic_replace fsStart "out/tmpab12" "out/dest.txt" [9, 9]
          "out/dest.txt" = some [9, 9] :=
  atomic_replace_atomic fsStart "out/tmpab12" "out/dest.txt" [9, 9]
    (by decide)

/-- C8: if the path prompt returns no value, `gate_write` returns no
result, emits exactly the cancellation notice, and leaves the filesystem
the very same map — no file is touched. -/
theorem gate_write_cancel (prompt : String → String → Option String)
    (expanduser : String → String) (encode : String → List Nat)
    (fs : Fs) (tmpName path content : String)
    (hc : prompt ("Write file to:\n" ++ path) "Write File" = none) :
    gate_write prompt expanduser encode fs tmpName path content =
      (none, fs, ["Write cancelled"]) := by
  unfold gate_write
  rw [hc]

/-- Witness for C8 with a prompt capability that always cancels. -/
theorem gate_write_cancel_witness :
    gate_write pathPromptNone expandId encodeUtf8 fsStart "out/tmpab12"
        "report.txt" "hello" = (none, fsStart, ["Write cancelled"]) :=
  gate_write_cancel pathPromptNone expandId encodeUtf8 fsStart
    "out/tmpab12" "report.txt" "hello" rfl

/-- C9 counterexample: in the console fallback of `tk_prompt`, an empty
input line is NOT treated as a cancel — the fallback returns the empty
string as a value, not "no value", so `gate_write` would proceed. -/
theorem tk_prompt_fallback_empty_line_counterexample :
    (tk_prompt_fallback "Write file to:\nreport.txt" (some "")).2 ≠
      none := by
  simp [tk_prompt_fallback]

/-- C9 amended: the console fallback prints the message followed by a
newline and a prompt marker and reads one line; the line read (empty or
not) is returned unchanged as the value, and only end-of-input
(`EOFError`) produces "no value" (a cancel). -/
theorem tk_prompt_fallback_spec (message : String)
    (inputLine : Option String) :
    (tk_prompt_fallback message inputLine).1 = message ++ "\n> " ∧
      (tk_prompt_fallback message inputLine).2 = inputLine := by
  cases inputLine <;> simp [tk_prompt_fallback]
